import Mathlib

/-!
Shallow embedding of the youtubeservice ingestion-and-distribution pipeline
(src/server.rs, src/youtube.rs, src/models.rs, src/log.rs).

Modelling conventions:
* Protobuf `Timestamp`s and parsed RFC 3339 instants are modelled as `Int`
  (seconds); the RFC 3339 string parse of `published_at` is abstracted to an
  already-parsed `Option Int` field (the claims under study depend only on the
  presence or absence of the field, not on the textual format).
* A Rust `panic!`/`unwrap()` on `None` is modelled by an explicit `panic`
  outcome constructor, never by a default value.
* The PostgreSQL table behind Diesel (schema.rs is generated and absent from
  the sources) is modelled as a list of rows; per the spec, the schema carries
  a unique constraint on the external message id, so an insert of a duplicate
  id fails with a `conflict` error.
* `tokio::sync::broadcast::Sender::send` fails exactly when no receiver is
  currently registered; the number of registered receivers is an explicit
  parameter of the fetch-step embedding.
-/

/-- Wire message `YouTubeChatMessage` (proto, server.rs). Timestamps are
`Option` because the proto fields are optional (`Some(..)` in the source). -/
structure YouTubeChatMessage where
  channel_id : String
  display_name : String
  message : String
  sent_at_timestamp : Option Int
  received_at_timestamp : Option Int
  message_id : String
deriving DecidableEq, Repr

/-- Database row shape (`InsertLivechatMessage`, models.rs). -/
structure InsertLivechatMessage where
  channel_id : String
  youtube_id : String
  display_name : String
  message : String
  sent_at : Int
  received_at : Int
deriving DecidableEq, Repr

/-- The durable log: the `livechat_messages` table as a list of rows. -/
abbrev Store := List InsertLivechatMessage

/-- Storage-layer error kinds seen by `insert_chat_message`. -/
inductive DbError
  | conflict
  | unavailable
deriving DecidableEq, Repr

/-- `From<&YouTubeChatMessage> for InsertLivechatMessage` (models.rs lines
51-70): unwraps both timestamps, so a missing timestamp is a panic, modelled
as `none`. -/
def InsertLivechatMessage.fromMsg (m : YouTubeChatMessage) :
    Option InsertLivechatMessage :=
  match m.sent_at_timestamp, m.received_at_timestamp with
  | some s, some r =>
      some { channel_id := m.channel_id, youtube_id := m.message_id,
             display_name := m.display_name, message := m.message,
             sent_at := s, received_at := r }
  | _, _ => none

/-- The Diesel `exists` filter on `youtube_id` (server.rs lines 207-210). -/
def storeHas (st : Store) (yid : String) : Bool :=
  st.any (fun r => r.youtube_id == yid)

/-- Modelled from the spec: the storage schema (diesel-generated schema.rs,
absent from src) enforces a unique constraint on the external message id
`youtube_id`; executing an INSERT for an id that is already present fails
with a uniqueness-violation (`conflict`) error, otherwise the row is
appended. -/
def insertExec (st : Store) (row : InsertLivechatMessage) :
    Except DbError Store :=
  if storeHas st row.youtube_id then .error .conflict else .ok (st ++ [row])

/-- Result of `insert_chat_message`: the returned `Result` plus the store it
leaves behind; `panic` models the timestamp `unwrap()`s in the `From`
conversion. -/
inductive InsertOutcome
  | ok (st : Store)
  | error (e : DbError) (st : Store)
  | panic
deriving DecidableEq, Repr

/-- `insert_chat_message` (server.rs lines 198-225). The existence check and
the INSERT acquire two separate pool connections, so a concurrent writer may
change the table in between; `checkSt` is the table state seen by the
existence query and `insertSt` the state seen by the INSERT. A sequential
call is `insert_chat_message st st m`. Any storage error at the INSERT is
propagated by the question-mark operator. -/
def insert_chat_message (checkSt insertSt : Store) (m : YouTubeChatMessage) :
    InsertOutcome :=
  if storeHas checkSt m.message_id then
    -- "Skipping message because it already exists": early Ok(()), no insert
    .ok insertSt
  else
    match InsertLivechatMessage.fromMsg m with
    | none => .panic
    | some row =>
        match insertExec insertSt row with
        | .ok st' => .ok st'
        | .error e => .error e insertSt

/-- gRPC status codes used by the service (tonic). -/
inductive GrpcCode
  | internal
deriving DecidableEq, Repr

/-- A tonic `Status`: code plus message. -/
structure GrpcStatus where
  code : GrpcCode
  message : String
deriving DecidableEq, Repr

/-- Outcome of one RPC handler call: a reply, an error status, or a process
abort (`unwrap()` on a failed operation). -/
inductive RpcResult (α : Type)
  | ok (a : α)
  | err (s : GrpcStatus)
  | panic
deriving DecidableEq, Repr

/-- Row-to-wire conversion `From<&LivechatMessage> for YouTubeChatMessage`
(server.rs lines 55-74): `message_id` is the row's `youtube_id` and the
timestamps are wrapped in `Some`. -/
def LivechatMessage.toChatMessage (r : InsertLivechatMessage) :
    YouTubeChatMessage :=
  { channel_id := r.channel_id, display_name := r.display_name,
    message := r.message, sent_at_timestamp := some r.sent_at,
    received_at_timestamp := some r.received_at, message_id := r.youtube_id }

/-- Ordering used by `.order(sent_at.desc())`: `a` before `b` when `a`'s
`sent_at` is at least `b`'s. -/
def rowGe (a b : InsertLivechatMessage) : Prop := b.sent_at ≤ a.sent_at

instance : DecidableRel rowGe :=
  fun a b => inferInstanceAs (Decidable (b.sent_at ≤ a.sent_at))

instance : IsTotal InsertLivechatMessage rowGe :=
  ⟨fun a b => le_total b.sent_at a.sent_at⟩

instance : IsTrans InsertLivechatMessage rowGe :=
  ⟨fun _ _ _ hab hbc => le_trans hbc hab⟩

/-- `ORDER BY sent_at DESC` over the table. -/
def sortBySentAtDesc (st : Store) : Store := List.insertionSort rowGe st

/-- `get_messages` (server.rs lines 178-195). `dbOutcome` is the combined
result of acquiring a pooled connection and running the query (both are
`unwrap()`ed in the source, so any failure is a panic). On success the rows
come back ordered by `sent_at` descending with OFFSET `off` and LIMIT
`limit`, converted to wire messages. -/
def get_messages (dbOutcome : Except DbError Store) (limit off : Nat) :
    RpcResult (List YouTubeChatMessage) :=
  match dbOutcome with
  | .error _ => .panic
  | .ok rows =>
      .ok ((((sortBySentAtDesc rows).drop off).take limit).map
        LivechatMessage.toChatMessage)

/-- Errors of the upstream client (`google_youtube3::Error`). -/
inductive GoogleError
  | badRequest (message : String)
  | failure (body : String)
  | fieldClash (s : String)
  | httpError (s : String)
  | ioError (s : String)
  | jsonDecodeError (body err : String)
  | missingToken (s : String)
  | uploadSizeLimitExceeded (uploaded maxSize : Nat)
  | missingAPIKey
  | cancelled
deriving DecidableEq, Repr

/-- `log_google_errors` (log.rs lines 86-143): logs and returns the
human-readable message for each upstream error variant. -/
def log_google_errors : GoogleError → String
  | .badRequest m => "BadRequest: " ++ m
  | .failure body => "Failure: " ++ body
  | .fieldClash s => "FieldClash: " ++ s
  | .httpError s => "HttpError: " ++ s
  | .ioError s => "IOError: " ++ s
  | .jsonDecodeError body err => "JsonDecodeError: " ++ err ++ ", body: " ++ body
  | .missingToken s => "MissingToken: " ++ s
  | .uploadSizeLimitExceeded u mx =>
      "UploadSizeLimitExceeded: uploaded_size: " ++ toString u ++
        ", max_size: " ++ toString mx
  | .missingAPIKey => "MissingAPIKey"
  | .cancelled => "Cancelled"

/-- `LiveChatTextMessageDetails` (google API). -/
structure LiveChatTextMessageDetails where
  message_text : Option String
deriving DecidableEq, Repr

/-- `LiveChatMessageSnippet` (google API), with `published_at` abstracted to
the parsed instant. -/
structure LiveChatMessageSnippet where
  type_ : Option String
  live_chat_id : Option String
  text_message_details : Option LiveChatTextMessageDetails
  published_at : Option Int
  display_message : Option String
deriving DecidableEq, Repr

/-- `LiveChatMessageAuthorDetails` (google API). -/
structure AuthorDetails where
  channel_id : Option String
  display_name : Option String
deriving DecidableEq, Repr

/-- `LiveChatMessage` (google API). -/
structure LiveChatMessage where
  snippet : Option LiveChatMessageSnippet
  author_details : Option AuthorDetails
  id : Option String
deriving DecidableEq, Repr

/-- Default `LiveChatMessageSnippet` (all fields unset). -/
def LiveChatMessageSnippet.default : LiveChatMessageSnippet :=
  { type_ := none, live_chat_id := none, text_message_details := none,
    published_at := none, display_message := none }

/-- The in-process world the service mutates: the durable table plus the
sequence of events published to the broadcast channel. -/
structure ServiceState where
  store : Store
  published : List YouTubeChatMessage
deriving DecidableEq, Repr

/-- Everything one `send_message` call produces: the reply to the client, the
service state it leaves behind, and the outbound API submissions it made. -/
structure SendResult where
  reply : RpcResult Unit
  state : ServiceState
  submissions : List LiveChatMessage
deriving DecidableEq, Repr

/-- `send_message` (server.rs lines 115-147): builds one
`textMessageEvent` addressed to `livechat_id`, performs exactly one
`live_chat_messages().insert(..).doit()` call whose outcome is `upstream`,
and on rejection returns `Status::internal` carrying the message produced by
`log_google_errors`. It reads neither the database pool nor the broadcast
sender. -/
def send_message (st : ServiceState) (livechat_id text : String)
    (upstream : Except GoogleError Unit) : SendResult :=
  let details : LiveChatTextMessageDetails := { message_text := some text }
  let snip : LiveChatMessageSnippet :=
    { LiveChatMessageSnippet.default with
        type_ := some "textMessageEvent",
        live_chat_id := some livechat_id,
        text_message_details := some details }
  let outbound : LiveChatMessage :=
    { snippet := some snip, author_details := none, id := none }
  match upstream with
  | .error e =>
      { reply := .err { code := .internal, message := log_google_errors e },
        state := st, submissions := [outbound] }
  | .ok _ =>
      { reply := .ok (), state := st, submissions := [outbound] }

/-- A computation that either returns or panics. -/
inductive PanicOr (α : Type)
  | ok (a : α)
  | panic
deriving DecidableEq, Repr

/-- Broadcast snippet: only `live_chat_id` is read by the core. -/
structure BroadcastSnippet where
  live_chat_id : Option String
deriving DecidableEq, Repr

/-- A `LiveBroadcast` (google API). -/
structure LiveBroadcast where
  snippet : Option BroadcastSnippet
deriving DecidableEq, Repr

/-- Response of `live_broadcasts().list(..)`. -/
structure LiveBroadcastListResponse where
  items : Option (List LiveBroadcast)
deriving DecidableEq, Repr

/-- `get_livechat_id` (youtube.rs lines 63-90): a failed request, an absent
item list, or an empty item list yield `none`; otherwise the first
broadcast's snippet is `unwrap()`ed (panic when absent) and its
`live_chat_id` is returned as-is. -/
def get_livechat_id (resp : Except GoogleError LiveBroadcastListResponse) :
    PanicOr (Option String) :=
  match resp with
  | .error _ => .ok none
  | .ok r =>
      match r.items with
      | none => .ok none
      | some broadcasts =>
          match broadcasts with
          | [] => .ok none
          | first :: _ =>
              match first.snippet with
              | none => .panic
              | some s => .ok s.live_chat_id

/-- Response of `live_chat_messages().list(..)` (google API), with the
poll-interval in milliseconds. -/
structure LiveChatMessageListResponse where
  items : Option (List LiveChatMessage)
  next_page_token : Option String
  polling_interval_millis : Option Nat
deriving DecidableEq, Repr

/-- The Fetcher's loop-carried state (server.rs lines 235-237) together with
the world it mutates: the durable table and the events sent to the broadcast
channel so far. -/
structure FetchState where
  livechat_id : String
  page_token : Option String
  store : Store
  published : List YouTubeChatMessage
deriving DecidableEq, Repr

/-- How one iteration of the `fetch_messages` loop ends: `continues s` means
the body reached its final sleep and the next iteration starts from `s`;
`exits` means `tx.send(..)?` returned an error and `fetch_messages` returned
`Err`; `panics` means an `unwrap()` on a missing field aborted the process. -/
inductive StepOutcome
  | continues (s : FetchState)
  | exits
  | panics
deriving DecidableEq, Repr

/-- `true` exactly on `continues`. -/
def StepOutcome.isContinues : StepOutcome → Bool
  | .continues _ => true
  | _ => false

/-- One loop iteration's outcome plus the number of `get_livechat_id`
resolution calls it performed. -/
structure StepResult where
  outcome : StepOutcome
  resolution_calls : Nat
deriving DecidableEq, Repr

/-- Outcome of the per-item `for msg in items` loop (server.rs lines
295-336): `panic` from an `unwrap()` on a missing field, `sendErr` when the
broadcast send failed (no registered receiver) and the question-mark
operator aborted `fetch_messages`, otherwise the final table and published
sequence. -/
inductive ItemsOutcome
  | panic
  | sendErr
  | ok (st : Store) (pub : List YouTubeChatMessage)
deriving DecidableEq, Repr

/-- The `for msg in items` body (server.rs lines 295-336), run over the whole
page. Every item — of any type — has `author_details`, `channel_id`,
`display_name`, `snippet`, `type_`, `published_at` and `id` unwrapped before
the type match; a `textMessageEvent` additionally unwraps `display_message`,
is run through `insert_chat_message` (an insert error is only logged) and is
then unconditionally sent to the broadcast channel, which fails exactly when
`receivers = 0`; items of any other type are skipped. `now` is the
wall-clock instant used for `received_at`. -/
def processItems (receivers : Nat) (now : Int) :
    List LiveChatMessage → Store → List YouTubeChatMessage → ItemsOutcome
  | [], st, pub => .ok st pub
  | msg :: rest, st, pub =>
      match msg.author_details with
      | none => .panic
      | some author =>
          match author.channel_id, author.display_name with
          | none, _ => .panic
          | _, none => .panic
          | some cid, some dname =>
              match msg.snippet with
              | none => .panic
              | some snip =>
                  match snip.type_, snip.published_at, msg.id with
                  | none, _, _ => .panic
                  | _, none, _ => .panic
                  | _, _, none => .panic
                  | some ty, some sentAt, some mid =>
                      if ty == "textMessageEvent" then
                        match snip.display_message with
                        | none => .panic
                        | some text =>
                            let chat : YouTubeChatMessage :=
                              { channel_id := cid, display_name := dname,
                                message := text,
                                sent_at_timestamp := some sentAt,
                                received_at_timestamp := some now,
                                message_id := mid }
                            match insert_chat_message st st chat with
                            | .panic => .panic
                            | .ok st' =>
                                if receivers == 0 then .sendErr
                                else processItems receivers now rest st'
                                  (pub ++ [chat])
                            | .error _ st' =>
                                -- insert error is logged; the send still runs
                                if receivers == 0 then .sendErr
                                else processItems receivers now rest st'
                                  (pub ++ [chat])
                      else processItems receivers now rest st pub

/-- The shared recovery branch (server.rs lines 256-266 and 278-287): one
`get_livechat_id` call; on `none` sleep ten seconds and keep the state, on
`some nid` adopt the new livechat id. The page token is left untouched in
both cases, and the loop continues. -/
def recoverStep (s : FetchState) (resolution : Option String) : StepResult :=
  match resolution with
  | none => { outcome := .continues s, resolution_calls := 1 }
  | some nid =>
      { outcome := .continues { s with livechat_id := nid },
        resolution_calls := 1 }

/-- One iteration of the `fetch_messages` loop (server.rs lines 239-340).
`poll` is the outcome of the list request, `resolution` the result
`get_livechat_id` would return if the iteration needs recovery, `receivers`
the number of currently registered broadcast receivers, and `now` the
wall-clock instant of the iteration. On a successful poll the page token is
replaced by the response's `next_page_token`, `polling_interval_millis` is
unwrapped (panic when absent), and the items are processed in page order. -/
def fetch_messages_step (s : FetchState)
    (poll : Except GoogleError LiveChatMessageListResponse)
    (resolution : Option String) (receivers : Nat) (now : Int) : StepResult :=
  match poll with
  | .error _ => recoverStep s resolution
  | .ok resp =>
      match resp.items with
      | none => recoverStep s resolution
      | some items =>
          match resp.polling_interval_millis with
          | none => { outcome := .panics, resolution_calls := 0 }
          | some _ =>
              match processItems receivers now items s.store s.published with
              | .panic => { outcome := .panics, resolution_calls := 0 }
              | .sendErr => { outcome := .exits, resolution_calls := 0 }
              | .ok st' pub' =>
                  { outcome := .continues
                      { s with
                        page_token := resp.next_page_token
                        store := st'
                        published := pub' },
                    resolution_calls := 0 }

/-- The state a `continues` outcome carries, if any. -/
def stepState (r : StepResult) : Option FetchState :=
  match r.outcome with
  | .continues s => some s
  | _ => none

/-- `true` exactly when the poll outcome drives the loop into recovery: a
request error, or a success without an item list (server.rs lines 252 and
272). -/
def pollFailed (poll : Except GoogleError LiveChatMessageListResponse) :
    Bool :=
  match poll with
  | .error _ => true
  | .ok resp => resp.items.isNone

/-- Number of rows of the table carrying the external id `yid`. -/
def countId (st : Store) (yid : String) : Nat :=
  (st.filter (fun r => r.youtube_id == yid)).length

/-- Sequential execution of `insert_chat_message` over a list of messages
(the Fetcher is the only writer): each call sees the table the previous one
left; a timestamp panic aborts the run. -/
def insertAll : Store → List YouTubeChatMessage → PanicOr Store
  | st, [] => .ok st
  | st, m :: rest =>
      match insert_chat_message st st m with
      | .panic => .panic
      | .ok s => insertAll s rest
      | .error _ s => insertAll s rest

/-- All fields the per-item mapping unwraps are present (and
`display_message` is present when the item is a `textMessageEvent`). -/
def itemOk (msg : LiveChatMessage) : Bool :=
  match msg.author_details, msg.snippet, msg.id with
  | some author, some snip, some _ =>
      author.channel_id.isSome && author.display_name.isSome &&
      snip.type_.isSome && snip.published_at.isSome &&
      (snip.type_ != some "textMessageEvent" || snip.display_message.isSome)
  | _, _, _ => false

/-- Fixture: a fully-populated `textMessageEvent` item with external id
`"a"`, as a poll page would return it. -/
def itemA : LiveChatMessage :=
  { author_details := some { channel_id := some "UC1",
                             display_name := some "Alice" },
    snippet := some { type_ := some "textMessageEvent", live_chat_id := none,
                      text_message_details := none, published_at := some 100,
                      display_message := some "hello" },
    id := some "a" }

/-- The `ChatEvent` the Fetcher maps `itemA` to at wall-clock instant 200. -/
def chatA : YouTubeChatMessage :=
  { channel_id := "UC1", display_name := "Alice", message := "hello",
    sent_at_timestamp := some 100, received_at_timestamp := some 200,
    message_id := "a" }

/-- The table row persisted for `chatA`. -/
def rowA : InsertLivechatMessage :=
  { channel_id := "UC1", youtube_id := "a", display_name := "Alice",
    message := "hello", sent_at := 100, received_at := 200 }

/-- Fixture: a successful poll page holding exactly `itemA`. -/
def pollA : LiveChatMessageListResponse :=
  { items := some [itemA], next_page_token := some "t1",
    polling_interval_millis := some 1000 }

/-- Fixture: a `textMessageEvent` item whose `author_details` field is
missing; every other field is present. -/
def itemNoAuthor : LiveChatMessage :=
  { author_details := none,
    snippet := some { type_ := some "textMessageEvent", live_chat_id := none,
                      text_message_details := none, published_at := some 50,
                      display_message := some "boom" },
    id := some "bad" }

/-- Fixture: a poll page whose first item lacks `author_details` and whose
second item is the fully-populated `itemA`. -/
def pollBad : LiveChatMessageListResponse :=
  { items := some [itemNoAuthor, itemA], next_page_token := some "t2",
    polling_interval_millis := some 1000 }

/-- Initial Fetcher state: empty table, nothing published. -/
def fetchS0 : FetchState :=
  { livechat_id := "L", page_token := none, store := [], published := [] }

/-- Fetcher state after one successful poll of `pollA` from `fetchS0`. -/
def fetchS1 : FetchState :=
  { livechat_id := "L", page_token := some "t1", store := [rowA],
    published := [chatA] }

/-- Fetcher state with a continuation token on hand. -/
def fetchSTok : FetchState :=
  { livechat_id := "L", page_token := some "t0", store := [], published := [] }

/-- Fixture: broadcast snippet with a live chat id. -/
def snipLC : BroadcastSnippet := { live_chat_id := some "LC1" }

/-- Fixture: a live broadcast carrying `snipLC`. -/
def bcastA : LiveBroadcast := { snippet := some snipLC }

/-- Fixture: a broadcast list response with one broadcast. -/
def bcastResp : LiveBroadcastListResponse := { items := some [bcastA] }


/-- The row produced by the timestamp conversion carries the message's
external id as its `youtube_id`. -/
theorem fromMsg_youtube_id (m : YouTubeChatMessage)
    (row : InsertLivechatMessage)
    (h : InsertLivechatMessage.fromMsg m = some row) :
    row.youtube_id = m.message_id := by
  unfold InsertLivechatMessage.fromMsg at h
  cases hs : m.sent_at_timestamp with
  | none => rw [hs] at h; exact absurd h (by simp)
  | some s =>
      cases hr : m.received_at_timestamp with
      | none => rw [hs, hr] at h; exact absurd h (by simp)
      | some r =>
          rw [hs, hr] at h
          cases h
          rfl

/-- A sequential `insert_chat_message` call (same table seen by the check and
the INSERT) reduces to: skip when present, panic when a timestamp is
missing, append otherwise. -/
theorem insert_chat_message_seq (st : Store) (m : YouTubeChatMessage) :
    insert_chat_message st st m =
      if storeHas st m.message_id then .ok st
      else
        match InsertLivechatMessage.fromMsg m with
        | none => .panic
        | some row => .ok (st ++ [row]) := by
  unfold insert_chat_message
  by_cases hhas : storeHas st m.message_id
  · simp [hhas]
  · simp only [hhas, Bool.false_eq_true, if_false]
    cases hfm : InsertLivechatMessage.fromMsg m with
    | none => rfl
    | some row =>
        have hy := fromMsg_youtube_id m row hfm
        simp only [insertExec, hy, hhas, Bool.false_eq_true, if_false]

/-- A message whose two timestamps are present never panics in a sequential
`insert_chat_message` call. -/
theorem insert_seq_ok (st : Store) (m : YouTubeChatMessage)
    (h1 : m.sent_at_timestamp.isSome = true)
    (h2 : m.received_at_timestamp.isSome = true) :
    ∃ st', insert_chat_message st st m = .ok st' := by
  rw [insert_chat_message_seq]
  by_cases hhas : storeHas st m.message_id
  · exact ⟨st, by simp [hhas]⟩
  · obtain ⟨s, hs⟩ := Option.isSome_iff_exists.mp h1
    obtain ⟨r, hr⟩ := Option.isSome_iff_exists.mp h2
    let row : InsertLivechatMessage :=
      { channel_id := m.channel_id, youtube_id := m.message_id,
        display_name := m.display_name, message := m.message,
        sent_at := s, received_at := r }
    refine ⟨st ++ [row], ?_⟩
    simp [hhas, InsertLivechatMessage.fromMsg, hs, hr, row]

/-- Appending one row changes the id count by one exactly when the row
carries that id. -/
theorem countId_append (st : Store) (row : InsertLivechatMessage)
    (yid : String) :
    countId (st ++ [row]) yid =
      countId st yid + (if row.youtube_id == yid then 1 else 0) := by
  unfold countId
  rw [List.filter_append, List.length_append]
  by_cases h : row.youtube_id == yid
  · simp [h]
  · simp [List.filter, h]

/-- The existence check succeeds exactly when the id count is positive. -/
theorem storeHas_iff_countId_pos (st : Store) (yid : String) :
    storeHas st yid = true ↔ 0 < countId st yid := by
  unfold storeHas countId
  constructor
  · intro h
    obtain ⟨r, hr, hp⟩ := List.any_eq_true.mp h
    exact List.length_pos.mpr
      (List.ne_nil_of_mem (List.mem_filter.mpr ⟨hr, hp⟩))
  · intro h
    obtain ⟨r, hr⟩ := List.exists_mem_of_length_pos h
    have hm := List.mem_filter.mp hr
    exact List.any_eq_true.mpr ⟨r, hm.1, hm.2⟩

/-- When every item of a page has all its unwrapped fields present and at
least one broadcast receiver is registered, the per-item loop finishes the
page without a panic and without a send error. -/
theorem processItems_ok_of_itemOk (receivers : Nat) (now : Int)
    (hr : receivers ≠ 0) (items : List LiveChatMessage) :
    ∀ (st : Store) (pub : List YouTubeChatMessage),
      (∀ m ∈ items, itemOk m = true) →
      ∃ st' pub', processItems receivers now items st pub = .ok st' pub' := by
  have hb : (receivers == 0) = false := beq_eq_false_iff_ne.mpr hr
  induction items with
  | nil => intro st pub _; exact ⟨st, pub, rfl⟩
  | cons m rest ih =>
    intro st pub h
    have hm := h m (List.mem_cons_self m rest)
    have hrest : ∀ x ∈ rest, itemOk x = true :=
      fun x hx => h x (List.mem_cons_of_mem m hx)
    cases hma : m.author_details with
    | none => simp [itemOk, hma] at hm
    | some author =>
    cases hsn : m.snippet with
    | none => simp [itemOk, hma, hsn] at hm
    | some snip =>
    cases hid : m.id with
    | none => simp [itemOk, hma, hsn, hid] at hm
    | some mid =>
    cases hcid : author.channel_id with
    | none => simp [itemOk, hma, hsn, hid, hcid] at hm
    | some cid =>
    cases hdn : author.display_name with
    | none => simp [itemOk, hma, hsn, hid, hcid, hdn] at hm
    | some dname =>
    cases hty : snip.type_ with
    | none => simp [itemOk, hma, hsn, hid, hcid, hdn, hty] at hm
    | some ty =>
    cases hpa : snip.published_at with
    | none => simp [itemOk, hma, hsn, hid, hcid, hdn, hty, hpa] at hm
    | some sentAt =>
    by_cases hty2 : ty = "textMessageEvent"
    · subst hty2
      cases hdmo : snip.display_message with
      | none => simp [itemOk, hma, hsn, hid, hcid, hdn, hty, hpa, hdmo] at hm
      | some text =>
        obtain ⟨st1, hins⟩ := insert_seq_ok st
          (YouTubeChatMessage.mk cid dname text (some sentAt) (some now) mid)
          rfl rfl
        obtain ⟨st', pub', hrec⟩ := ih st1
          (pub ++ [YouTubeChatMessage.mk cid dname text (some sentAt)
            (some now) mid]) hrest
        refine ⟨st', pub', ?_⟩
        simp only [processItems, hma, hcid, hdn, hsn, hty, hpa, hid, hdmo,
          hins, hb, beq_self_eq_true, if_true, Bool.false_eq_true, if_false]
        exact hrec
    · obtain ⟨st', pub', hrec⟩ := ih st pub hrest
      refine ⟨st', pub', ?_⟩
      have hbe : (ty == "textMessageEvent") = false :=
        beq_eq_false_iff_ne.mpr hty2
      simp only [processItems, hma, hcid, hdn, hsn, hty, hpa, hid, hbe,
        Bool.false_eq_true, if_false]
      exact hrec

/-- Count bookkeeping for a sequential run of `insert_chat_message` over a
message list: the at-most-one invariant is preserved, presence is preserved,
and an id occurring in the list is present afterwards. -/
theorem insertAll_countId (yid : String) (msgs : List YouTubeChatMessage) :
    ∀ (st st' : Store), insertAll st msgs = .ok st' →
      (countId st yid ≤ 1 → countId st' yid ≤ 1) ∧
      (0 < countId st yid → 0 < countId st' yid) ∧
      ((∃ m ∈ msgs, m.message_id = yid) → 0 < countId st' yid) := by
  induction msgs with
  | nil =>
    intro st st' h
    simp only [insertAll] at h
    injection h with h1
    subst h1
    refine ⟨fun hle => hle, fun hp => hp, ?_⟩
    rintro ⟨mm, hmm, _⟩
    exact absurd hmm (List.not_mem_nil mm)
  | cons m rest ih =>
    intro st st' h
    simp only [insertAll] at h
    cases hins : insert_chat_message st st m with
    | panic => rw [hins] at h; exact absurd h (by simp)
    | error e st1 =>
      have hseq := insert_chat_message_seq st m
      rw [hins] at hseq
      by_cases hhas : storeHas st m.message_id
      · rw [if_pos hhas] at hseq; exact absurd hseq (by simp)
      · rw [if_neg hhas] at hseq
        cases hfm : InsertLivechatMessage.fromMsg m with
        | none => rw [hfm] at hseq; exact absurd hseq (by simp)
        | some row => rw [hfm] at hseq; exact absurd hseq (by simp)
    | ok st1 =>
      rw [hins] at h
      have hseq := insert_chat_message_seq st m
      rw [hins] at hseq
      by_cases hhas : storeHas st m.message_id
      · rw [if_pos hhas] at hseq
        injection hseq with h1
        rw [h1] at h
        have hrec := ih st st' h
        refine ⟨hrec.1, hrec.2.1, ?_⟩
        rintro ⟨mm, hmm, hmy⟩
        rcases List.mem_cons.mp hmm with heq | hmem
        · subst heq
          exact hrec.2.1 ((storeHas_iff_countId_pos st yid).mp (hmy ▸ hhas))
        · exact hrec.2.2 ⟨mm, hmem, hmy⟩
      · rw [if_neg hhas] at hseq
        cases hfm : InsertLivechatMessage.fromMsg m with
        | none => rw [hfm] at hseq; exact absurd hseq (by simp)
        | some row =>
          rw [hfm] at hseq
          injection hseq with h1
          rw [h1] at h
          have hrec := ih (st ++ [row]) st' h
          have hcnt := countId_append st row yid
          have hy := fromMsg_youtube_id m row hfm
          have hmono : countId st yid ≤ countId (st ++ [row]) yid := by
            rw [hcnt]; split <;> omega
          have hz : countId st m.message_id = 0 := by
            by_contra hc
            exact hhas ((storeHas_iff_countId_pos st m.message_id).mpr
              (Nat.pos_of_ne_zero hc))
          refine ⟨?_, fun hp => hrec.2.1 (lt_of_lt_of_le hp hmono), ?_⟩
          · intro hle
            apply hrec.1
            rw [hcnt]
            by_cases hyy : (row.youtube_id == yid) = true
            · have hz2 : countId st yid = 0 := by
                rw [(beq_iff_eq.mp hyy).symm.trans hy]
                exact hz
              simp only [hyy, if_true]
              omega
            · have hyy2 : (row.youtube_id == yid) = false :=
                eq_false_of_ne_true hyy
              simp only [hyy2, Bool.false_eq_true, if_false]
              omega
          · rintro ⟨mm, hmm, hmy⟩
            rcases List.mem_cons.mp hmm with heq | hmem
            · subst heq
              apply hrec.2.1
              rw [hcnt]
              have hyy : (row.youtube_id == yid) = true :=
                beq_iff_eq.mpr (hy.trans hmy)
              simp only [hyy, if_true]
              omega
            · exact hrec.2.2 ⟨mm, hmem, hmy⟩

/-- C1 counterexample: with zero registered subscribers, publishing the
single well-formed text message of `pollA` makes `tx.send(..)?` fail, and
the `fetch_messages` loop ends by returning an error instead of continuing
— refuting that the publish step never fails and never terminates the
loop. -/
theorem publish_zero_subscribers_exits :
    fetch_messages_step fetchS0 (.ok pollA) none 0 200 =
      { outcome := .exits, resolution_calls := 0 } := by decide

/-- C1 (amended): for every ingested chat event, the publish step succeeds
and the poll loop keeps running provided at least one subscriber is
currently registered; with zero subscribers the broadcast send errors and
the question-mark operator terminates the loop. -/
theorem publish_with_subscriber_continues (s : FetchState)
    (resp : LiveChatMessageListResponse) (resolution : Option String)
    (receivers : Nat) (now : Int) (l : List LiveChatMessage)
    (hr : receivers ≠ 0)
    (hpi : resp.polling_interval_millis.isSome = true)
    (hitems : resp.items = some l)
    (hok : ∀ m ∈ l, itemOk m = true) :
    (fetch_messages_step s (.ok resp) resolution receivers
      now).outcome.isContinues = true := by
  obtain ⟨w, hw⟩ := Option.isSome_iff_exists.mp hpi
  obtain ⟨st', pub', hproc⟩ :=
    processItems_ok_of_itemOk receivers now hr l s.store s.published hok
  simp only [fetch_messages_step, hitems, hw, hproc]
  rfl

/-- C1 witness: the amended theorem at the concrete well-formed poll with
one subscriber. -/
theorem publish_with_subscriber_continues_witness :
    (1 : Nat) ≠ 0 ∧
    (fetch_messages_step fetchS0 (.ok pollA) none 1
      200).outcome.isContinues = true :=
  ⟨by decide, publish_with_subscriber_continues fetchS0 pollA none 1 200
    [itemA] (by decide) (by decide) rfl (by decide)⟩

/-- C2 counterexample: upstream returns the item with external id "a" in two
consecutive polls; after the second poll the table still holds exactly one
row for "a", but the event has been published twice — the duplicate is
skipped only by the insert, not by the broadcast send. -/
theorem duplicate_item_republished :
    fetch_messages_step fetchS0 (.ok pollA) none 1 200 =
      { outcome := .continues fetchS1, resolution_calls := 0 } ∧
    (stepState (fetch_messages_step fetchS1 (.ok pollA) none 1 200)).map
        (fun t => (countId t.store "a",
          (t.published.filter (fun mm => mm.message_id == "a")).length)) =
      some (1, 2) := by
  exact ⟨by decide, by decide⟩

/-- C2 (amended): when a poll page consists of a text item whose external id
already exists in the table, the step stores no second row — the table is
unchanged — but still publishes the event once more: one publish per poll
occurrence of the id, not one publish per external id. -/
theorem duplicate_item_one_row_republished (s : FetchState)
    (resp : LiveChatMessageListResponse) (resolution : Option String)
    (receivers : Nat) (now : Int) (m : LiveChatMessage)
    (author : AuthorDetails) (snip : LiveChatMessageSnippet)
    (cid dname text mid : String) (sentAt : Int) (w : Nat)
    (hitems : resp.items = some [m])
    (hpi : resp.polling_interval_millis = some w)
    (hma : m.author_details = some author)
    (hcid : author.channel_id = some cid)
    (hdn : author.display_name = some dname)
    (hsn : m.snippet = some snip)
    (hty : snip.type_ = some "textMessageEvent")
    (hpa : snip.published_at = some sentAt)
    (hdm : snip.display_message = some text)
    (hid : m.id = some mid)
    (hdup : storeHas s.store mid = true)
    (hr : receivers ≠ 0) :
    (stepState (fetch_messages_step s (.ok resp) resolution receivers
        now)).map FetchState.store = some s.store ∧
    (stepState (fetch_messages_step s (.ok resp) resolution receivers
        now)).map FetchState.published =
      some (s.published ++ [YouTubeChatMessage.mk cid dname text
        (some sentAt) (some now) mid]) := by
  have hb : (receivers == 0) = false := beq_eq_false_iff_ne.mpr hr
  have hins : insert_chat_message s.store s.store
      (YouTubeChatMessage.mk cid dname text (some sentAt) (some now) mid) =
      .ok s.store := by
    rw [insert_chat_message_seq]
    simp [hdup]
  simp only [fetch_messages_step, hitems, hpi, processItems, hma, hcid, hdn,
    hsn, hty, hpa, hid, hdm, hins, hb, beq_self_eq_true, if_true,
    Bool.false_eq_true, if_false, stepState]
  exact ⟨rfl, rfl⟩

/-- C2 witness: the amended theorem at the concrete duplicate poll. -/
theorem duplicate_item_one_row_republished_witness :
    storeHas fetchS1.store "a" = true ∧
    (stepState (fetch_messages_step fetchS1 (.ok pollA) none 1 200)).map
        FetchState.store = some fetchS1.store ∧
    (stepState (fetch_messages_step fetchS1 (.ok pollA) none 1 200)).map
        FetchState.published =
      some (fetchS1.published ++ [YouTubeChatMessage.mk "UC1" "Alice"
        "hello" (some 100) (some 200) "a"]) :=
  ⟨by decide,
    (duplicate_item_one_row_republished fetchS1 pollA none 1 200 itemA
      (AuthorDetails.mk (some "UC1") (some "Alice"))
      (LiveChatMessageSnippet.mk (some "textMessageEvent") none none
        (some 100) (some "hello"))
      "UC1" "Alice" "hello" "a" 100 1000 rfl rfl rfl rfl rfl rfl rfl rfl rfl
      rfl (by decide) (by decide)).1,
    (duplicate_item_one_row_republished fetchS1 pollA none 1 200 itemA
      (AuthorDetails.mk (some "UC1") (some "Alice"))
      (LiveChatMessageSnippet.mk (some "textMessageEvent") none none
        (some 100) (some "hello"))
      "UC1" "Alice" "hello" "a" 100 1000 rfl rfl rfl rfl rfl rfl rfl rfl rfl
      rfl (by decide) (by decide)).2⟩

/-- C3 counterexample: a failed poll followed by a successful broadcast-id
resolution adopts the new id after exactly one resolution call, but the
continuation token is not cleared: it keeps its previous value "t0" instead
of becoming `none`. -/
theorem recovery_keeps_page_token :
    (stepState (fetch_messages_step fetchSTok (.error .cancelled)
        (some "L2") 1 200)).map FetchState.page_token = some (some "t0") ∧
    (stepState (fetch_messages_step fetchSTok (.error .cancelled)
        (some "L2") 1 200)).map FetchState.livechat_id = some "L2" ∧
    (fetch_messages_step fetchSTok (.error .cancelled) (some "L2") 1
        200).resolution_calls = 1 ∧
    some (some "t0") ≠ some (none : Option String) := by decide

/-- C3 (amended): whenever a poll fails (request error or absent item list)
and the broadcast-id resolution succeeds, the Fetcher adopts the new id
after exactly one resolution call and resumes polling, with the
continuation token carried over unchanged (not cleared) and the table and
published sequence untouched. -/
theorem recovery_adopts_id_one_call (s : FetchState) (nid : String)
    (poll : Except GoogleError LiveChatMessageListResponse)
    (receivers : Nat) (now : Int)
    (hfail : pollFailed poll = true) :
    fetch_messages_step s poll (some nid) receivers now =
      { outcome := .continues { s with livechat_id := nid },
        resolution_calls := 1 } := by
  cases poll with
  | error e => rfl
  | ok resp =>
    cases hresp : resp.items with
    | none => simp only [fetch_messages_step, hresp]; rfl
    | some l => simp [pollFailed, hresp] at hfail

/-- C3 witness: the amended theorem at a concrete failed poll. -/
theorem recovery_adopts_id_one_call_witness :
    pollFailed (.error .cancelled) = true ∧
    fetch_messages_step fetchSTok (.error .cancelled) (some "L2") 1 200 =
      { outcome := .continues { fetchSTok with livechat_id := "L2" },
        resolution_calls := 1 } :=
  ⟨by decide, recovery_adopts_id_one_call fetchSTok "L2" (.error .cancelled)
    1 200 (by decide)⟩

/-- C4: a poll page whose first item is a `textMessageEvent` with
`author_details` missing — followed by a perfectly well-formed item — makes
the whole iteration panic on the `unwrap()`: the offending item is not
skipped and reported, the well-formed remaining item is neither persisted
nor published, and the poll loop aborts. -/
theorem missing_author_panics_whole_poll :
    fetch_messages_step fetchS0 (.ok pollBad) none 1 200 =
      { outcome := .panics, resolution_calls := 0 } := by decide

/-- C5: running any sequence of sequential `insert_chat_message` calls from
an empty table stores at most one row per external id, and exactly one row
for every external id that occurs in the sequence — whether the duplicate
arrives in the same poll or a later one, an external id never appears twice
in the store. -/
theorem insert_if_absent_dedup (msgs : List YouTubeChatMessage)
    (yid : String) (st' : Store) (h : insertAll [] msgs = .ok st') :
    countId st' yid ≤ 1 ∧
      ((∃ m ∈ msgs, m.message_id = yid) → countId st' yid = 1) := by
  have haux := insertAll_countId yid msgs [] st' h
  have h1 : countId ([] : Store) yid ≤ 1 := by simp [countId]
  refine ⟨haux.1 h1, fun hex => ?_⟩
  have hpos := haux.2.2 hex
  have hle := haux.1 h1
  omega

/-- C5 witness: the dedup theorem at the concrete sequence that repeats the
external id "a". -/
theorem insert_if_absent_dedup_witness :
    insertAll [] [chatA, chatA] = .ok [rowA] ∧
    countId [rowA] "a" ≤ 1 ∧ countId [rowA] "a" = 1 :=
  ⟨by decide,
    (insert_if_absent_dedup [chatA, chatA] "a" [rowA] (by decide)).1,
    (insert_if_absent_dedup [chatA, chatA] "a" [rowA] (by decide)).2
      ⟨chatA, by decide⟩⟩

/-- C6 counterexample: when the existence check sees a table without the
row but the row for the same external id is created before the INSERT runs,
the INSERT's uniqueness violation is returned to the caller as a `conflict`
error — not converted to success. -/
theorem conflict_error_propagated :
    insert_chat_message [] [rowA] chatA = .error .conflict [rowA] := by
  decide

/-- C6 (amended): a `conflict` failure of the storage-layer INSERT (the row
for that external id was created concurrently after the existence check) is
propagated to the caller by the question-mark operator rather than being
treated as success; the fetch loop caller merely logs it. -/
theorem conflict_error_propagated_general (checkSt insertSt : Store)
    (m : YouTubeChatMessage) (row : InsertLivechatMessage)
    (hchk : storeHas checkSt m.message_id = false)
    (hrow : InsertLivechatMessage.fromMsg m = some row)
    (hins : storeHas insertSt m.message_id = true) :
    insert_chat_message checkSt insertSt m = .error .conflict insertSt := by
  have hy := fromMsg_youtube_id m row hrow
  simp [insert_chat_message, hchk, hrow, insertExec, hy, hins]

/-- C6 witness: the amended theorem at the concrete conflicting input. -/
theorem conflict_error_propagated_general_witness :
    storeHas [] chatA.message_id = false ∧
    storeHas [rowA] chatA.message_id = true ∧
    insert_chat_message [] [rowA] chatA = .error .conflict [rowA] :=
  ⟨by decide, by decide,
    conflict_error_propagated_general [] [rowA] chatA rowA (by decide)
      (by decide) (by decide)⟩

/-- C7: `get_messages` on a successful read returns a window of the table
sorted by `sent_at` descending: there is a descending-sorted permutation of
the stored rows such that the reply skips its first `off` entries and
returns at most `limit` of the rest, in that order. -/
theorem get_messages_sorted_window (rows : Store) (limit off : Nat) :
    List.Perm (sortBySentAtDesc rows) rows ∧
    List.Sorted rowGe (sortBySentAtDesc rows) ∧
    get_messages (.ok rows) limit off =
      .ok ((((sortBySentAtDesc rows).drop off).take limit).map
        LivechatMessage.toChatMessage) ∧
    (((sortBySentAtDesc rows).drop off).take limit).length ≤ limit := by
  refine ⟨List.perm_insertionSort rowGe rows,
    List.sorted_insertionSort rowGe rows, rfl, ?_⟩
  rw [List.length_take]
  exact min_le_left _ _

/-- C8 counterexample: a storage-layer failure in `get_messages` does not
produce an RPC error status — the handler `unwrap()`s the failure and the
call aborts. -/
theorem get_messages_db_failure_panics_example :
    get_messages (.error .unavailable) 10 0 = .panic := by decide

/-- C8 (amended): on every storage-layer failure (connection acquisition or
query error), `get_messages` panics — aborting via `unwrap()` — instead of
returning an RPC-level error with a categorized message to the client. -/
theorem get_messages_db_failure_panics (e : DbError) (limit off : Nat) :
    get_messages (.error e) limit off = .panic := rfl

/-- C9: `send_message` leaves the service state (durable table and published
sequence) unchanged, performs exactly one outbound submission with no
retry, returns `Status::internal` carrying the upstream error message on
rejection, and an empty reply on success. -/
theorem send_message_frame (st : ServiceState) (lid text : String)
    (upstream : Except GoogleError Unit) :
    (send_message st lid text upstream).state = st ∧
    (send_message st lid text upstream).submissions.length = 1 ∧
    (∀ e, upstream = .error e →
      (send_message st lid text upstream).reply =
        .err { code := .internal, message := log_google_errors e }) ∧
    (upstream = .ok () →
      (send_message st lid text upstream).reply = .ok ()) := by
  cases upstream with
  | error e =>
    refine ⟨rfl, rfl, ?_, ?_⟩
    · intro e2 h
      injection h with h2
      subst h2
      rfl
    · intro h
      exact absurd h (by simp)
  | ok u =>
    cases u
    refine ⟨rfl, rfl, ?_, fun _ => rfl⟩
    intro e2 h
    exact absurd h (by simp)

/-- C9 witness: the frame theorem at a concrete rejected send. -/
theorem send_message_frame_witness :
    (send_message { store := [], published := [] } "L" "hi"
        (.error .cancelled)).state = { store := [], published := [] } ∧
    (send_message { store := [], published := [] } "L" "hi"
        (.error .cancelled)).submissions.length = 1 ∧
    (send_message { store := [], published := [] } "L" "hi"
        (.error .cancelled)).reply =
      .err { code := .internal, message := "Cancelled" } :=
  ⟨(send_message_frame { store := [], published := [] } "L" "hi"
      (.error .cancelled)).1,
    (send_message_frame { store := [], published := [] } "L" "hi"
      (.error .cancelled)).2.1,
    (send_message_frame { store := [], published := [] } "L" "hi"
      (.error .cancelled)).2.2.1 .cancelled rfl⟩

/-- C10: `get_livechat_id` returns `none` — not an error — on a failed
request, an absent item list, or an empty item list; when the list is
non-empty and its first broadcast carries a snippet it returns that
snippet's `live_chat_id`; when the first broadcast carries no snippet it
panics instead of returning `none`. -/
theorem get_livechat_id_spec :
    (∀ e, get_livechat_id (.error e) = .ok none) ∧
    (∀ r, r.items = none → get_livechat_id (.ok r) = .ok none) ∧
    (∀ r, r.items = some [] → get_livechat_id (.ok r) = .ok none) ∧
    (∀ r b rest s, r.items = some (b :: rest) → b.snippet = some s →
      get_livechat_id (.ok r) = .ok s.live_chat_id) ∧
    (∀ r b rest, r.items = some (b :: rest) → b.snippet = none →
      get_livechat_id (.ok r) = .panic) := by
  refine ⟨fun e => rfl, ?_, ?_, ?_, ?_⟩
  · intro r h
    simp only [get_livechat_id, h]
  · intro r h
    simp only [get_livechat_id, h]
  · intro r b rest s h hs
    simp only [get_livechat_id, h, hs]
  · intro r b rest h hs
    simp only [get_livechat_id, h, hs]

/-- C10 witness: the snippet-present case at a concrete response. -/
theorem get_livechat_id_spec_witness :
    get_livechat_id (.ok bcastResp) = .ok (some "LC1") :=
  get_livechat_id_spec.2.2.2.1 bcastResp bcastA [] snipLC rfl rfl
